import Mathlib

/-!
Shallow embedding of the scoring, ranking and insight pipeline of
`streamlit_app.py` (Architectural Case Finder).  Machine floats of the
source are modelled as exact rationals; the epsilon constant `1e-6`
used throughout the source's min-max normalizations is `eps` below.
-/

namespace CaseFinder

/-- The `1e-6` epsilon added to normalization denominators in the source. -/
def eps : ℚ := 1 / 1000000

/-- One row of the case table (`Category_02F.csv`): the five design-feature
magnitude columns, the four core performance metrics, the two renewables
area fractions and the surface area.  Field names follow the source's
column constants (`col_heat`, `col_over`, `col_sDA`, `col_ASE`, `params`). -/
structure Case where
  Cases_ID : String
  Vertical_Steps_Section : ℚ
  Horizontal_Steps_Plan : ℚ
  Balcony_Steps : ℚ
  PV_Canopy_Steps : ℚ
  Vertical_Louvre_Steps : ℚ
  winter : ℚ
  summer : ℚ
  sDA : ℚ
  ASE : ℚ
  PercArea_PV_Potential : ℚ
  PercArea_Active_Solar_Potential : ℚ
  Surface_Area : ℚ
  deriving DecidableEq

/-- pandas `Series.min()` over a column, restricted to the nonempty lists the
source ever applies it to (empty candidate sets are diverted beforehand). -/
def listMin : List ℚ → ℚ
  | [] => 0
  | x :: xs => xs.foldl min x

/-- pandas `Series.max()` over a column (same convention as `listMin`). -/
def listMax : List ℚ → ℚ
  | [] => 0
  | x :: xs => xs.foldl max x

/-- The source's min-max normalization of one value of a column:
`(value - min) / (max - min + 1e-6)` (the pattern at lines 113-125). -/
def normalize (l : List ℚ) (v : ℚ) : ℚ :=
  (v - listMin l) / (listMax l - listMin l + eps)

/-- `df['Total_Surface'] = df['PercArea_PV_Potential'] + df['PercArea_Active_Solar_Potential']`
(line 111). -/
def Total_Surface (c : Case) : ℚ :=
  c.PercArea_PV_Potential + c.PercArea_Active_Solar_Potential

/-- pandas `.clip(0, 1)` on a value. -/
def clip01 (x : ℚ) : ℚ := min (max x 0) 1

/-- `df['Score_Renewables']` (lines 110-115): the normalized total renewables
area fraction averaged 50/50 with the inverted normalized surface area, then
clipped to `[0,1]`.  `df` is the filtered candidate set; the `Surface_Area`
column is present in the modelled schema, so the source's scalar fallback
branch for a missing column is not taken. -/
def Score_Renewables (df : List Case) (c : Case) : ℚ :=
  let n_act := normalize (df.map Total_Surface) (Total_Surface c)
  let n_surf_inv := 1 - normalize (df.map Case.Surface_Area) c.Surface_Area
  clip01 (n_act * (1/2) + n_surf_inv * (1/2))

/-- `df['Score_Thermal']` (lines 118-120): 50/50 average of the normalized
winter radiation and the inverted normalized summer radiation. -/
def Score_Thermal (df : List Case) (c : Case) : ℚ :=
  let n_heat := normalize (df.map Case.winter) c.winter
  let n_over := 1 - normalize (df.map Case.summer) c.summer
  n_heat * (1/2) + n_over * (1/2)

/-- `df['Score_Daylight']` (lines 123-125): 50/50 average of the normalized
sDA and the inverted normalized ASE. -/
def Score_Daylight (df : List Case) (c : Case) : ℚ :=
  let n_sda := normalize (df.map Case.sDA) c.sDA
  let n_ase := 1 - normalize (df.map Case.ASE) c.ASE
  n_sda * (1/2) + n_ase * (1/2)

/-- The `renew_choice` radio button: `"Ignored"` or `"Mandatory"`. -/
inductive RenewStrategy where
  | ignored : RenewStrategy
  | mandatory : RenewStrategy
  deriving DecidableEq

/-- `w_renew` (lines 97-100): `0.10` under Mandatory, `0.0` under Ignored. -/
def w_renew : RenewStrategy → ℚ
  | .mandatory => 1/10
  | .ignored => 0

/-- `pool` (lines 97-100): `0.90` under Mandatory, `1.0` under Ignored. -/
def pool : RenewStrategy → ℚ
  | .mandatory => 9/10
  | .ignored => 1

/-- `daylight_display = 100 - slider_val` (line 76); the slider takes the
integer values `0..100`. -/
def daylight_display (slider_val : ℕ) : ℕ := 100 - slider_val

/-- `current_w_energy = (slider_val / 100) * pool` (line 102). -/
def current_w_energy (slider_val : ℕ) (s : RenewStrategy) : ℚ :=
  ((slider_val : ℚ) / 100) * pool s

/-- `current_w_daylight = (daylight_display / 100) * pool` (line 103). -/
def current_w_daylight (slider_val : ℕ) (s : RenewStrategy) : ℚ :=
  ((daylight_display slider_val : ℚ) / 100) * pool s

/-- `df['Final_Score']` (lines 128-130): weighted sum of the three
category scores. -/
def Final_Score (df : List Case) (slider_val : ℕ) (s : RenewStrategy) (c : Case) : ℚ :=
  Score_Renewables df c * w_renew s +
    Score_Thermal df c * current_w_energy slider_val s +
    Score_Daylight df c * current_w_daylight slider_val s

/-- The tri-state sidebar choice of `apply_filter` (line 50). -/
inductive FilterChoice where
  | required : FilterChoice
  | flexible : FilterChoice
  | excluded : FilterChoice
  deriving DecidableEq

/-- `apply_filter` (lines 49-55): `Required` keeps rows with `df[col] > 0`,
`Excluded` keeps rows with `df[col] == 0`, `Flexible` keeps everything. -/
def apply_filter (choice : FilterChoice) (col : Case → ℚ) (df : List Case) : List Case :=
  match choice with
  | .required => df.filter (fun c => decide (0 < col c))
  | .excluded => df.filter (fun c => decide (col c = 0))
  | .flexible => df

/-- The five sidebar choices, in the order they are applied (lines 57-62). -/
structure FilterConfig where
  vertical : FilterChoice
  horizontal : FilterChoice
  balcony : FilterChoice
  canopy : FilterChoice
  louvers : FilterChoice
  deriving DecidableEq

/-- The filter chain of lines 57-62: the five `apply_filter` calls applied to
the raw table in order. -/
def df_filtered (cfg : FilterConfig) (df_raw : List Case) : List Case :=
  apply_filter cfg.louvers Case.Vertical_Louvre_Steps
    (apply_filter cfg.canopy Case.PV_Canopy_Steps
      (apply_filter cfg.balcony Case.Balcony_Steps
        (apply_filter cfg.horizontal Case.Horizontal_Steps_Plan
          (apply_filter cfg.vertical Case.Vertical_Steps_Section df_raw))))

/-- The outcome of pressing "Find Best Cases" (lines 95-137): either the
distinct "No cases match your filter criteria." warning, or the scored
candidate set (each case paired with its `Final_Score`). -/
inductive RunOutput where
  | noMatches : RunOutput
  | results : List (Case × ℚ) → RunOutput

/-- The calculation engine of lines 95-137: filter, then either warn on an
empty candidate set (lines 106-107) or score every remaining case.  No
normalization or scoring runs on an empty set. -/
def findBestCases (cfg : FilterConfig) (slider_val : ℕ) (s : RenewStrategy)
    (df_raw : List Case) : RunOutput :=
  let df := df_filtered cfg df_raw
  if df.isEmpty then
    RunOutput.noMatches
  else
    RunOutput.results (df.map (fun c => (c, Final_Score df slider_val s c)))

/-- Whether the character list `p` occurs at the head of `l`. -/
def headMatches : List Char → List Char → Bool
  | _, [] => true
  | [], _ :: _ => false
  | c :: cs, p :: ps => c == p && headMatches cs ps

/-- Whether the character list `p` occurs anywhere inside `l`. -/
def containsSeq : List Char → List Char → Bool
  | [], p => p.isEmpty
  | c :: cs, p => headMatches (c :: cs) p || containsSeq cs p

/-- `df_raw[col_id].astype(str).str.contains('Base', case=False)` for one
identifier (line 160): case-insensitive substring test for `"Base"`. -/
def isBaseId (s : String) : Bool :=
  containsSeq (s.data.map Char.toLower) ['b', 'a', 's', 'e']

/-- `base_case_search ... .iloc[0]` (lines 160-163): the first row of the raw
table whose identifier contains `"Base"` case-insensitively, if any. -/
def base_case_search (df_raw : List Case) : Option Case :=
  (df_raw.filter (fun c => isBaseId c.Cases_ID)).head?

/-- `diff_pct = ((c_val - b_val) / (b_val + 1e-6)) * 100` (line 174). -/
def diff_pct (c_val b_val : ℚ) : ℚ :=
  ((c_val - b_val) / (b_val + eps)) * 100

/-- The `indicators` dict of lines 164-169: the four core metric columns in
display order, each with its `'inv'` polarity flag (`true` = lower is
better, shown with `delta_color="inverse"`). -/
def indicators : List ((Case → ℚ) × Bool) :=
  [(Case.sDA, false), (Case.ASE, true), (Case.winter, false), (Case.summer, true)]

/-- The baseline-comparison section (lines 160-177): skipped (`none`) when no
identifier matches the baseline marker, otherwise the four signed
percentage deltas of the selected case against the baseline, each tagged
with its polarity flag. -/
def baselineDeltas (df_raw : List Case) (case_data : Case) : Option (List (ℚ × Bool)) :=
  match base_case_search df_raw with
  | none => none
  | some b => some (indicators.map (fun ind => (diff_pct (ind.1 case_data) (ind.1 b), ind.2)))

/-- The 10% tolerance of line 239. -/
def tolerance : ℚ := 1/10

/-- The four possible strategic-adjustment flags of lines 242-258 (their
fixed natural-language remediation text is presentation and not modelled). -/
inductive Fix where
  | glare : Fix
  | daylight : Fix
  | winterGain : Fix
  | summerOverheat : Fix
  deriving DecidableEq

/-- The strategic-adjustments computation (lines 232-258).  The fourth check
(line 257) reads `base_case[col_over]` without any guard: `base_case` is
only assigned inside the `if not base_case_search.empty` block at line 163,
so when no baseline row exists and the first conjunct of line 257 is true
(Python `and` short-circuits), the source raises a `NameError`; that crash
is modelled as `Except.error ()`. -/
def strategicFixes (case_data : Case) (top_10 : List Case) (base_case : Option Case) :
    Except Unit (List Fix) :=
  let best_ase := listMin (top_10.map Case.ASE)
  let best_sda := listMax (top_10.map Case.sDA)
  let best_winter := listMax (top_10.map Case.winter)
  let best_summer := listMin (top_10.map Case.summer)
  let f1 : List Fix :=
    if case_data.ASE > best_ase * (1 + tolerance) ∧ case_data.ASE > 10 then [Fix.glare] else []
  let f2 : List Fix :=
    if case_data.sDA < best_sda * (1 - tolerance) then [Fix.daylight] else []
  let f3 : List Fix :=
    if case_data.winter < best_winter * (1 - tolerance) then [Fix.winterGain] else []
  if case_data.summer > best_summer * (1 + tolerance) then
    match base_case with
    | none => Except.error ()
    | some b =>
      if case_data.summer > b.summer * (1/2) then
        Except.ok (f1 ++ f2 ++ f3 ++ [Fix.summerOverheat])
      else
        Except.ok (f1 ++ f2 ++ f3)
  else
    Except.ok (f1 ++ f2 ++ f3)

/-- The five design-feature columns, in the order of the source's `params`
list (line 33). -/
def paramCols : List (Case → ℚ) :=
  [Case.Vertical_Steps_Section, Case.Horizontal_Steps_Plan, Case.Balcony_Steps,
    Case.PV_Canopy_Steps, Case.Vertical_Louvre_Steps]

/-- The two possible wordings of the per-feature significance report. -/
inductive SignificanceReport where
  | meaningfulShift : SignificanceReport
  | couldBeRandom : SignificanceReport
  deriving DecidableEq

/-- Modelled from the spec: `ks_2samp` is imported at line 5 of
`streamlit_app.py` but the insight code that consumes it is not under
`src/`; per the spec, the result of the two-sample Kolmogorov-Smirnov test
is reported as "statistically meaningful shift" if its p-value is below
0.05 and "could be random" otherwise. -/
def ksReport (pvalue : ℚ) : SignificanceReport :=
  if pvalue < 1/20 then SignificanceReport.meaningfulShift
  else SignificanceReport.couldBeRandom

/-- Modelled from the spec: the per-feature significance bundle, comparing
each design feature's values in the full candidate set against the top-N
set.  The p-value function `pval` stands for the external `ks_2samp`
(scipy), which is outside the repository. -/
def insightSignificance (pval : List ℚ → List ℚ → ℚ)
    (full_df top_10 : List Case) : List SignificanceReport :=
  paramCols.map (fun col => ksReport (pval (full_df.map col) (top_10.map col)))

/-- Modelled from the spec: a run's user-facing output pairs the ranked
result with the informational per-feature significance reports, which never
gate or filter the ranked output. -/
def runWithInsights (pval : List ℚ → List ℚ → ℚ) (cfg : FilterConfig)
    (slider_val : ℕ) (s : RenewStrategy) (df_raw top_10 : List Case) :
    RunOutput × List SignificanceReport :=
  (findBestCases cfg slider_val s df_raw,
    insightSignificance pval (df_filtered cfg df_raw) top_10)

/-- Convenience constructor for concrete rows, in field order. -/
def mkCase (id : String) (v1 v2 v3 v4 v5 w s sd a pv act su : ℚ) : Case :=
  ⟨id, v1, v2, v3, v4, v5, w, s, sd, a, pv, act, su⟩

/-- The imbalanced case of the spec's renewables scenario: PV 5, active 40. -/
def caseImb : Case := mkCase "Case_A" 0 0 0 0 0 100 50 50 10 5 40 100

/-- The balanced case of the spec's renewables scenario: PV 25, active 20. -/
def caseBal : Case := mkCase "Case_B" 0 0 0 0 0 100 50 50 10 25 20 100

/-- A third case making the renewables normalization non-degenerate. -/
def caseLow : Case := mkCase "Case_C" 0 0 0 0 0 100 50 50 10 0 0 100

/-- Candidate set for the renewables scenario. -/
def dfC1 : List Case := [caseImb, caseBal, caseLow]

/-- Case 1 of the spec's thermal scenario: winter 100, summer 50. -/
def case5a : Case := mkCase "Case_1" 0 0 0 0 0 100 50 50 10 0 0 100

/-- Case 2 of the spec's thermal scenario: winter 150, summer 80. -/
def case5b : Case := mkCase "Case_2" 0 0 0 0 0 150 80 50 10 0 0 100

/-- Case 3 of the spec's thermal scenario: winter 200, summer 30. -/
def case5c : Case := mkCase "Case_3" 0 0 0 0 0 200 30 50 10 0 0 100

/-- Candidate set for the thermal scenario. -/
def dfC5 : List Case := [case5a, case5b, case5c]

/-- A repository row whose identifier carries no baseline marker. -/
def c81 : Case := mkCase "Case_01" 0 0 0 0 0 100 30 50 10 0 0 100

/-- A second such row, with summer radiation more than 10% above the
top-set minimum, so the fourth strategic check fires. -/
def c82 : Case := mkCase "Case_02" 0 0 0 0 0 100 50 50 10 0 0 100

/-- A repository with no baseline row at all. -/
def dfC8 : List Case := [c81, c82]

/-- A designated baseline row (identifier contains "Base"), all four core
metrics at 100. -/
def baseCase9 : Case := mkCase "Base_Case" 0 0 0 0 0 100 100 100 100 0 0 100

/-- A selected case with all four core metrics at 120. -/
def c9sel : Case := mkCase "Case_X" 0 0 0 0 0 120 120 120 120 0 0 100

/-- A case whose vertical-steps magnitude is negative. -/
def caseNeg : Case := mkCase "Case_N" (-1) 0 0 0 0 100 50 50 10 0 0 100

/-- Singleton table holding only the negative-magnitude case. -/
def dfNeg : List Case := [caseNeg]

/-- A case with every design-feature magnitude zero. -/
def caseZero : Case := mkCase "Case_00" 0 0 0 0 0 100 50 50 10 0 0 100

/-- A filter configuration requiring the vertical-steps feature. -/
def cfgReq : FilterConfig :=
  ⟨FilterChoice.required, FilterChoice.flexible, FilterChoice.flexible,
    FilterChoice.flexible, FilterChoice.flexible⟩

theorem foldl_min_le_init (xs : List ℚ) : ∀ a : ℚ, xs.foldl min a ≤ a := by
  induction xs with
  | nil => intro a; simp
  | cons x xs ih =>
    intro a
    exact le_trans (ih (min a x)) (min_le_left a x)

theorem foldl_min_le_mem (xs : List ℚ) : ∀ (a v : ℚ), v ∈ xs → xs.foldl min a ≤ v := by
  induction xs with
  | nil => intro a v hv; cases hv
  | cons y ys ih =>
    intro a v hv
    rcases List.mem_cons.mp hv with h | h
    · subst h
      exact le_trans (foldl_min_le_init ys (min a v)) (min_le_right a v)
    · exact ih (min a y) v h

theorem init_le_foldl_max (xs : List ℚ) : ∀ a : ℚ, a ≤ xs.foldl max a := by
  induction xs with
  | nil => intro a; simp
  | cons x xs ih =>
    intro a
    exact le_trans (le_max_left a x) (ih (max a x))

theorem mem_le_foldl_max (xs : List ℚ) : ∀ (a v : ℚ), v ∈ xs → v ≤ xs.foldl max a := by
  induction xs with
  | nil => intro a v hv; cases hv
  | cons y ys ih =>
    intro a v hv
    rcases List.mem_cons.mp hv with h | h
    · subst h
      exact le_trans (le_max_right a v) (init_le_foldl_max ys (max a v))
    · exact ih (max a y) v h

theorem listMin_le_mem (l : List ℚ) (v : ℚ) (hv : v ∈ l) : listMin l ≤ v := by
  match l, hv with
  | x :: xs, hv =>
    rcases List.mem_cons.mp hv with h | h
    · subst h; exact foldl_min_le_init xs v
    · exact foldl_min_le_mem xs x v h

theorem mem_le_listMax (l : List ℚ) (v : ℚ) (hv : v ∈ l) : v ≤ listMax l := by
  match l, hv with
  | x :: xs, hv =>
    rcases List.mem_cons.mp hv with h | h
    · subst h; exact init_le_foldl_max xs v
    · exact mem_le_foldl_max xs x v h

theorem normalize_denom_pos (l : List ℚ) (v : ℚ) (hv : v ∈ l) :
    0 < listMax l - listMin l + eps := by
  have h1 : listMin l ≤ v := listMin_le_mem l v hv
  have h2 : v ≤ listMax l := mem_le_listMax l v hv
  have heps : (0 : ℚ) < eps := by norm_num [eps]
  linarith

theorem normalize_nonneg (l : List ℚ) (v : ℚ) (hv : v ∈ l) :
    0 ≤ normalize l v := by
  have h1 : listMin l ≤ v := listMin_le_mem l v hv
  exact div_nonneg (by linarith) (le_of_lt (normalize_denom_pos l v hv))

theorem normalize_le_one (l : List ℚ) (v : ℚ) (hv : v ∈ l) :
    normalize l v ≤ 1 := by
  have h2 : v ≤ listMax l := mem_le_listMax l v hv
  have heps : (0 : ℚ) < eps := by norm_num [eps]
  rw [normalize, div_le_one (normalize_denom_pos l v hv)]
  linarith

/-- C1 counterexample: with candidate set `dfC1`, the imbalanced case
(PV 5, active 40) and the otherwise-identical balanced case (PV 25,
active 20) receive the same nonzero `Score_Renewables`, not a 2:1 ratio:
the code applies no imbalance penalty. -/
theorem C1_counterexample :
    caseImb.PercArea_PV_Potential = 5 ∧ caseImb.PercArea_Active_Solar_Potential = 40 ∧
    caseBal.PercArea_PV_Potential = 25 ∧ caseBal.PercArea_Active_Solar_Potential = 20 ∧
    Score_Renewables dfC1 caseImb = Score_Renewables dfC1 caseBal ∧
    Score_Renewables dfC1 caseBal ≠ 0 ∧
    Score_Renewables dfC1 caseImb ≠ Score_Renewables dfC1 caseBal * (1/2) := by
  refine ⟨rfl, rfl, rfl, rfl, ?_⟩
  norm_num [Score_Renewables, Total_Surface, normalize, listMin, listMax, clip01,
    dfC1, caseImb, caseBal, caseLow, mkCase, eps, min_def, max_def]

/-- C1 (amended): `Score_Renewables` depends on the two contributing area
fractions only through their sum, so for any candidate set two cases with
equal `PV + active` sums and equal surface area receive exactly equal
renewables normalized values; no threshold-based 0.5 discount exists. -/
theorem C1_no_imbalance_penalty (df : List Case) (c1 c2 : Case)
    (hsum : Total_Surface c1 = Total_Surface c2)
    (hsurf : c1.Surface_Area = c2.Surface_Area) :
    Score_Renewables df c1 = Score_Renewables df c2 := by
  simp only [Score_Renewables, hsum, hsurf]

/-- C1 witness: the amended statement at the spec's concrete pair. -/
theorem C1_witness : Score_Renewables dfC1 caseImb = Score_Renewables dfC1 caseBal :=
  C1_no_imbalance_penalty dfC1 caseImb caseBal
    (by norm_num [Total_Surface, caseImb, caseBal, mkCase]) rfl

/-- C2: for every slider value in `0..100` and both renewables strategies,
the derived weights `w_renew`, `current_w_energy` and `current_w_daylight`
sum exactly to 1. -/
theorem C2_weights_sum_to_one (slider_val : ℕ) (s : RenewStrategy)
    (h : slider_val ≤ 100) :
    w_renew s + current_w_energy slider_val s + current_w_daylight slider_val s = 1 := by
  have hd : ((daylight_display slider_val : ℕ) : ℚ) = 100 - (slider_val : ℚ) := by
    unfold daylight_display
    push_cast [Nat.cast_sub h]
    ring
  cases s <;>
    simp only [w_renew, pool, current_w_energy, current_w_daylight, hd] <;> ring

/-- C2 witness: slider at 50 under the Mandatory strategy. -/
theorem C2_witness :
    w_renew RenewStrategy.mandatory + current_w_energy 50 RenewStrategy.mandatory +
      current_w_daylight 50 RenewStrategy.mandatory = 1 :=
  C2_weights_sum_to_one 50 RenewStrategy.mandatory (by norm_num)

/-- C3: every min-max-normalized value of a member of a column lies in
`[0,1]` inclusive, and a constant column (min = max) normalizes to exactly
0 (the epsilon in the denominator keeps the division defined). -/
theorem C3_normalize_bounds (l : List ℚ) (v : ℚ) (hv : v ∈ l) :
    0 ≤ normalize l v ∧ normalize l v ≤ 1 ∧
    (listMin l = listMax l → normalize l v = 0) := by
  refine ⟨normalize_nonneg l v hv, normalize_le_one l v hv, ?_⟩
  intro hconst
  have h1 : listMin l ≤ v := listMin_le_mem l v hv
  have h2 : v ≤ listMax l := mem_le_listMax l v hv
  have h2' : v ≤ listMin l := by rw [hconst]; exact h2
  have hv' : v = listMin l := le_antisymm h2' h1
  rw [normalize, hv', sub_self, zero_div]

/-- C3 witness: the constant column `[5, 5]` normalizes its member to 0,
within bounds. -/
theorem C3_witness :
    0 ≤ normalize [(5 : ℚ), 5] 5 ∧ normalize [(5 : ℚ), 5] 5 ≤ 1 ∧
    normalize [(5 : ℚ), 5] 5 = 0 := by
  have h := C3_normalize_bounds [(5 : ℚ), 5] 5 (by norm_num)
  exact ⟨h.1, h.2.1, h.2.2 (by norm_num [listMin, listMax])⟩

/-- C5 counterexample: on the spec's three-case thermal scenario with
weights (0, 1, 0), case 2 (winter 150, summer 80) scores strictly BELOW
case 1 (winter 100, summer 50), so the claimed order
case3 > case2 > case1 is false on the code. -/
theorem C5_counterexample :
    Score_Thermal dfC5 case5b < Score_Thermal dfC5 case5a ∧
    Final_Score dfC5 100 RenewStrategy.ignored case5b <
      Final_Score dfC5 100 RenewStrategy.ignored case5a := by
  constructor <;>
    norm_num [Final_Score, Score_Renewables, Score_Thermal, Score_Daylight,
      Total_Surface, normalize, listMin, listMax, clip01, current_w_energy,
      current_w_daylight, daylight_display, pool, w_renew, dfC5, case5a, case5b,
      case5c, mkCase, eps, min_def, max_def]

/-- C5 (amended): on the spec's scenario the code ranks
case3 > case1 > case2, with case 3's thermal score within `eps` of 1.0 and
case 1's within `eps` of 0.3. -/
theorem C5_corrected_ranking :
    1 - eps < Score_Thermal dfC5 case5c ∧ Score_Thermal dfC5 case5c < 1 ∧
    3/10 < Score_Thermal dfC5 case5a ∧ Score_Thermal dfC5 case5a < 3/10 + eps ∧
    Final_Score dfC5 100 RenewStrategy.ignored case5a <
      Final_Score dfC5 100 RenewStrategy.ignored case5c ∧
    Final_Score dfC5 100 RenewStrategy.ignored case5b <
      Final_Score dfC5 100 RenewStrategy.ignored case5a := by
  refine ⟨?_, ?_, ?_, ?_, ?_, ?_⟩ <;>
    norm_num [Final_Score, Score_Renewables, Score_Thermal, Score_Daylight,
      Total_Surface, normalize, listMin, listMax, clip01, current_w_energy,
      current_w_daylight, daylight_display, pool, w_renew, dfC5, case5a, case5b,
      case5c, mkCase, eps, min_def, max_def]

/-- C6 counterexample: a case whose feature magnitude is negative is kept
by neither the `Required` run (`> 0`) nor the `Excluded` run (`== 0`), so
the two subsets are not jointly exhaustive over signed magnitudes. -/
theorem C6_counterexample :
    caseNeg.Vertical_Steps_Section = -1 ∧ caseNeg ∈ dfNeg ∧
    caseNeg ∉ apply_filter FilterChoice.required Case.Vertical_Steps_Section dfNeg ∧
    caseNeg ∉ apply_filter FilterChoice.excluded Case.Vertical_Steps_Section dfNeg := by
  refine ⟨rfl, by simp [dfNeg], ?_, ?_⟩ <;>
    norm_num [apply_filter, dfNeg, caseNeg, mkCase, List.mem_filter]

/-- C6 (amended): filtering with all five features Flexible returns the
input unchanged; for one feature the Required and Excluded subsets are
disjoint, and they are jointly exhaustive for cases whose feature
magnitude is nonnegative (a negative magnitude lands in neither). -/
theorem C6_filter_partition (df : List Case) (col : Case → ℚ) (c : Case)
    (hc : c ∈ df) :
    df_filtered ⟨FilterChoice.flexible, FilterChoice.flexible, FilterChoice.flexible,
        FilterChoice.flexible, FilterChoice.flexible⟩ df = df ∧
    ¬(c ∈ apply_filter FilterChoice.required col df ∧
        c ∈ apply_filter FilterChoice.excluded col df) ∧
    (0 ≤ col c →
      c ∈ apply_filter FilterChoice.required col df ∨
        c ∈ apply_filter FilterChoice.excluded col df) := by
  refine ⟨rfl, ?_, ?_⟩
  · rintro ⟨hr, he⟩
    simp only [apply_filter, List.mem_filter, decide_eq_true_eq] at hr he
    exact ne_of_gt hr.2 he.2
  · intro h0
    rcases lt_or_eq_of_le h0 with hlt | heq
    · left
      simp only [apply_filter, List.mem_filter, decide_eq_true_eq]
      exact ⟨hc, hlt⟩
    · right
      simp only [apply_filter, List.mem_filter, decide_eq_true_eq]
      exact ⟨hc, heq.symm⟩

/-- C6 witness: the amended statement on a singleton table whose case has
feature magnitude 0. -/
theorem C6_witness :
    df_filtered ⟨FilterChoice.flexible, FilterChoice.flexible, FilterChoice.flexible,
        FilterChoice.flexible, FilterChoice.flexible⟩ [caseZero] = [caseZero] ∧
    ¬(caseZero ∈ apply_filter FilterChoice.required Case.Vertical_Steps_Section [caseZero] ∧
        caseZero ∈ apply_filter FilterChoice.excluded Case.Vertical_Steps_Section [caseZero]) ∧
    (0 ≤ Case.Vertical_Steps_Section caseZero →
      caseZero ∈ apply_filter FilterChoice.required Case.Vertical_Steps_Section [caseZero] ∨
        caseZero ∈ apply_filter FilterChoice.excluded Case.Vertical_Steps_Section [caseZero]) :=
  C6_filter_partition [caseZero] Case.Vertical_Steps_Section caseZero (by simp)

/-- C7: when the constraint filter leaves an empty candidate set, the
engine emits the distinct no-matches signal and performs no scoring; the
signal is a different constructor from every scored result. -/
theorem C7_empty_short_circuit (cfg : FilterConfig) (slider_val : ℕ)
    (s : RenewStrategy) (df_raw : List Case)
    (h : df_filtered cfg df_raw = []) :
    findBestCases cfg slider_val s df_raw = RunOutput.noMatches ∧
    ∀ scored : List (Case × ℚ), RunOutput.noMatches ≠ RunOutput.results scored := by
  constructor
  · simp [findBestCases, h]
  · intro scored hcontra
    exact RunOutput.noConfusion hcontra

/-- C7 witness: requiring the vertical-steps feature on a table whose only
case has it at zero yields the no-matches signal. -/
theorem C7_witness :
    findBestCases cfgReq 50 RenewStrategy.ignored [caseZero] = RunOutput.noMatches :=
  (C7_empty_short_circuit cfgReq 50 RenewStrategy.ignored [caseZero]
    (by norm_num [df_filtered, apply_filter, cfgReq, caseZero, mkCase])).1

/-- C8: with a repository containing no baseline identifier, the guarded
baseline-delta section is skipped (`none`), but the strategic-adjustments
section evaluates the unguarded `base_case` reference of line 257 and
crashes (modelled `Except.error`) for a selected case whose summer
radiation exceeds the top-set minimum by more than 10%; the claim that all
remaining sections are produced without error is violated by the code. -/
theorem C8_missing_baseline_crash :
    base_case_search dfC8 = none ∧
    baselineDeltas dfC8 c82 = none ∧
    strategicFixes c82 dfC8 (base_case_search dfC8) = Except.error () := by
  have hnone : base_case_search dfC8 = none := by
    simp [base_case_search, isBaseId, containsSeq, headMatches, dfC8, c81, c82, mkCase]
  refine ⟨hnone, ?_, ?_⟩
  · simp [baselineDeltas, hnone]
  · rw [hnone]
    norm_num [strategicFixes, listMin, listMax, tolerance, dfC8, c81, c82, mkCase,
      min_def, max_def]

/-- C9: whenever a baseline row is found, the reported deltas are exactly
`diff_pct` of the four core metrics in display order, with the polarity
flag set exactly on the lower-is-better metrics (ASE, summer); and a case
value of 120 against a baseline of 100 yields +20.0% within epsilon
tolerance. -/
theorem C9_baseline_delta (df_raw : List Case) (case_data b : Case)
    (h : base_case_search df_raw = some b) :
    baselineDeltas df_raw case_data = some
      [(diff_pct case_data.sDA b.sDA, false), (diff_pct case_data.ASE b.ASE, true),
        (diff_pct case_data.winter b.winter, false),
        (diff_pct case_data.summer b.summer, true)] ∧
    |diff_pct 120 100 - 20| < 1/1000 := by
  constructor
  · simp [baselineDeltas, h, indicators]
  · rw [abs_sub_lt_iff]
    constructor <;> norm_num [diff_pct, eps]

/-- C9 witness: a table whose single row is the baseline, and a selected
case with all four metrics at 120 against the baseline's 100. -/
theorem C9_witness :
    baselineDeltas [baseCase9] c9sel = some
      [(diff_pct c9sel.sDA baseCase9.sDA, false), (diff_pct c9sel.ASE baseCase9.ASE, true),
        (diff_pct c9sel.winter baseCase9.winter, false),
        (diff_pct c9sel.summer baseCase9.summer, true)] ∧
    |diff_pct 120 100 - 20| < 1/1000 :=
  C9_baseline_delta [baseCase9] c9sel baseCase9
    (by simp [base_case_search, isBaseId, containsSeq, headMatches, baseCase9, mkCase])

/-- C10: the per-feature significance bundle reports a meaningful shift
exactly when the p-value is below 0.05, covers every design feature, and
the ranked output of a run is identical under any p-value function — the
test result never gates or filters the ranking. -/
theorem C10_significance_informational (pval pval' : List ℚ → List ℚ → ℚ)
    (full_df top_10 df_raw : List Case) (cfg : FilterConfig) (slider_val : ℕ)
    (s : RenewStrategy) (p : ℚ) :
    (ksReport p = SignificanceReport.meaningfulShift ↔ p < 1/20) ∧
    (insightSignificance pval full_df top_10).length = paramCols.length ∧
    (runWithInsights pval cfg slider_val s df_raw top_10).1 =
      (runWithInsights pval' cfg slider_val s df_raw top_10).1 := by
  refine ⟨?_, ?_, rfl⟩
  · rw [ksReport]
    split_ifs with hp
    · simpa [one_div] using hp
    · simpa [one_div, not_lt] using hp
  · simp [insightSignificance]

end CaseFinder
